import Mathlib

/-!
Verification development for the isp-service-checker program (src/main.py).

The program is shallowly embedded: pure Lean functions mirror the Python
functions `load_config`, `ensure_csv_with_headers`, `append_result`,
`_handle_stop_signal` and the run loop inside `main`.  External effects are
made explicit:

* the filesystem destination of the CSV log is an `Option (List (List String))`
  (`none` = file does not exist, `some rows` = existing file with those records);
* a parsed TOML document is an association list of `String × Toml`
  (tomllib rejects duplicate keys, so first-match lookup is exact);
* the speed-test provider, the append I/O outcome, the start timestamps and the
  value of the global stop flag at every check point are oracles packaged in
  an `Env`; the run loop is driven by fuel and produces the observable trace of
  events (records appended, stderr diagnostics, stdout status lines, sleeps).
-/

/-- Decidable equality for fallible results, used to evaluate the embedded
functions on concrete inputs. -/
instance {ε α : Type} [DecidableEq ε] [DecidableEq α] : DecidableEq (Except ε α) :=
  fun a b =>
    match a, b with
    | .ok x, .ok y =>
      if h : x = y then isTrue (by rw [h]) else isFalse (by simp [h])
    | .error x, .error y =>
      if h : x = y then isTrue (by rw [h]) else isFalse (by simp [h])
    | .ok _, .error _ => isFalse (by simp)
    | .error _, .ok _ => isFalse (by simp)

/-- A TOML value as produced by `tomllib.load`. -/
inductive Toml where
  | int (i : Int)
  | float (q : ℚ)
  | str (s : String)
  | bool (b : Bool)
  | datetime (rendered : String)
  | arr (xs : List Toml)
  | table (kvs : List (String × Toml))

/-- Dictionary lookup (`dict.get`) on a parsed TOML table, first match wins. -/
def tget : List (String × Toml) → String → Option Toml
  | [], _ => none
  | (k, v) :: rest, key => if k = key then some v else tget rest key

/-- Truncation toward zero, the conversion `int(float)` performs in Python. -/
def ratTruncTowardZero (q : ℚ) : Int :=
  if 0 ≤ q then ⌊q⌋ else -⌊-q⌋

/-- Python `int(string)`: optional surrounding whitespace, an optional sign,
then decimal digits.  (CPython also accepts digit-grouping underscores and
non-ASCII digits; neither occurs in any configuration in scope and they are
not modelled.) -/
def parseIntLiteral (s : String) : Except String Int :=
  let stripped := ((s.data.dropWhile Char.isWhitespace).reverse.dropWhile
    Char.isWhitespace).reverse
  let core := match stripped with
    | '-' :: rest => rest
    | '+' :: rest => rest
    | cs => cs
  let neg := match stripped with
    | '-' :: _ => true
    | _ => false
  if core ≠ [] ∧ core.all Char.isDigit then
    let n : Nat := core.foldl (fun acc c => 10 * acc + (c.toNat - 48)) 0
    .ok (if neg then -(n : Int) else (n : Int))
  else
    .error ("ValueError: invalid literal for int() with base 10: " ++ s)

/-- Python `int(value)` applied to a TOML value: exact for integers, truncating
for floats, `True`/`False` are 1/0, strings are parsed, everything else raises
`TypeError`. -/
def pyInt : Toml → Except String Int
  | .int i => .ok i
  | .float q => .ok (ratTruncTowardZero q)
  | .bool b => .ok (if b then 1 else 0)
  | .str s => parseIntLiteral s
  | .datetime _ => .error "TypeError: int() argument must be a string or a real number"
  | .arr _ => .error "TypeError: int() argument must be a string or a real number"
  | .table _ => .error "TypeError: int() argument must be a string or a real number"

/-- Python `str(value)` applied to a TOML value.  It never fails.  The scalar
cases used by the program are exact; the renderings of floats and containers
abbreviate CPython's repr (no claim in scope depends on them). -/
def pyStr : Toml → String
  | .str s => s
  | .int i => toString i
  | .bool b => if b then "True" else "False"
  | .float q => toString q
  | .datetime r => r
  | .arr _ => "[...]"
  | .table _ => "\x7b...\x7d"

/-- The configuration returned by `load_config`: always exactly the shape
`\x7b"app": \x7b"interval_seconds": int, "log_file": str\x7d\x7d`. -/
structure AppConfig where
  interval_seconds : Int
  log_file : String
deriving DecidableEq, Repr

/-- Lines 37-41 of `load_config`, applied to a successfully parsed document:
`app_cfg = data.get("app", \x7b\x7d)`, `interval = int(app_cfg.get("interval_seconds", 300))`,
`log_file = str(app_cfg.get("log_file", "internet_metrics.csv"))`.
An `int()` failure propagates (the Python code has no try/except here); a
non-table value under `"app"` makes `app_cfg.get` raise `AttributeError`. -/
def load_config_data (data : List (String × Toml)) : Except String AppConfig :=
  match tget data "app" with
  | none =>
    .ok { interval_seconds := 300, log_file := "internet_metrics.csv" }
  | some (Toml.table kvs) =>
    match (match tget kvs "interval_seconds" with
           | none => Except.ok 300
           | some v => pyInt v) with
    | .error e => .error e
    | .ok interval =>
      .ok { interval_seconds := interval,
            log_file := match tget kvs "log_file" with
                        | none => "internet_metrics.csv"
                        | some v => pyStr v }
  | some _ => .error "AttributeError: object has no attribute get"

/-- `load_config(config_path)`.  The filesystem is abstracted to the argument:
`none` models `os.path.isfile(config_path)` being false; `some (.error e)`
models `tomllib.load` raising on malformed content (which propagates);
`some (.ok data)` is a successfully parsed document. -/
def load_config (file : Option (Except String (List (String × Toml)))) :
    Except String AppConfig :=
  match file with
  | none => .ok { interval_seconds := 300, log_file := "internet_metrics.csv" }
  | some (.error e) => .error e
  | some (.ok data) => load_config_data data

/-- The header row written by `ensure_csv_with_headers`. -/
def csvHeader : List String := ["timestamp_iso", "download_mbps", "upload_mbps", "ping_ms"]

/-- `ensure_csv_with_headers(csv_path)`.  The destination is `none` when the
file does not exist and `some rows` when it exists with those records
(`os.path.getsize(...) == 0` corresponds to `rows = []`; the defensive
`except OSError` branch in the source cannot fire in this filesystem model,
where the size of an existing file is always readable).  Opening with mode
`"a"` creates the file when missing and otherwise appends. -/
def ensure_csv_with_headers (dest : Option (List (List String))) :
    Option (List (List String)) :=
  let file_exists := dest.isSome
  let needs_header :=
    match dest with
    | none => true
    | some rows => rows.isEmpty
  if !file_exists || needs_header then
    some ((dest.getD []) ++ [csvHeader])
  else
    dest

/-- A naive `datetime.datetime` value, as produced by `datetime.utcnow()`. -/
structure PyDatetime where
  year : Nat
  month : Nat
  day : Nat
  hour : Nat
  minute : Nat
  second : Nat
  microsecond : Nat
deriving DecidableEq, Repr

/-- The decimal digit character for `d % 10`. -/
def digitChar (d : Nat) : Char := Char.ofNat (48 + d % 10)

/-- Two-digit zero-padded decimal rendering (for values below 100). -/
def pad2 (n : Nat) : String :=
  String.mk [digitChar (n / 10), digitChar n]

/-- Four-digit zero-padded decimal rendering (for values below 10000;
`datetime` years never exceed 9999). -/
def pad4 (n : Nat) : String :=
  String.mk [digitChar (n / 1000), digitChar (n / 100), digitChar (n / 10), digitChar n]

/-- Six-digit zero-padded decimal rendering of the microsecond field. -/
def pad6 (n : Nat) : String :=
  String.mk [digitChar (n / 100000), digitChar (n / 10000), digitChar (n / 1000),
             digitChar (n / 100), digitChar (n / 10), digitChar n]

/-- `datetime.isoformat()` of a naive value: `YYYY-MM-DDTHH:MM:SS` with a
`.ffffff` part exactly when the microsecond field is nonzero, and no offset. -/
def isoformatNaive (t : PyDatetime) : String :=
  pad4 t.year ++ "-" ++ pad2 t.month ++ "-" ++ pad2 t.day ++ "T" ++
    pad2 t.hour ++ ":" ++ pad2 t.minute ++ ":" ++ pad2 t.second ++
    (if t.microsecond = 0 then "" else "." ++ pad6 t.microsecond)

/-- `when.replace(tzinfo=timezone.utc).isoformat()`: the naive rendering
followed by the explicit UTC offset marker `+00:00`. -/
def isoformatUTC (t : PyDatetime) : String :=
  isoformatNaive t ++ "+00:00"

/-- Round to the nearest integer, ties to even — the rounding `%.2f` applies
(exact on the rational carried by the embedding; an IEEE double's exact value
is such a rational). -/
def roundHalfEven (q : ℚ) : Int :=
  let f := ⌊q⌋
  let r := q - (f : ℚ)
  if r < 1 / 2 then f
  else if 1 / 2 < r then f + 1
  else if f % 2 = 0 then f else f + 1

/-- Python `f"\x7bx:.2f\x7d"`: sign of the value, integer part, a dot, then
exactly two decimal digits. -/
def format2 (q : ℚ) : String :=
  let n := (roundHalfEven (q * 100)).natAbs
  let sign := if q < 0 then "-" else ""
  sign ++ toString (n / 100) ++ "." ++ pad2 (n % 100)

/-- The CSV record `append_result` writes for one sample. -/
def sampleRow (started : PyDatetime) (download_mbps upload_mbps ping_ms : ℚ) :
    List String :=
  [isoformatUTC started, format2 download_mbps, format2 upload_mbps, format2 ping_ms]

/-- `append_result(csv_path, when, ...)` on the success path: open for append
(never truncate), write exactly one record, flush on close.  The function
returns the destination's content immediately after the call. -/
def append_result (rows : List (List String)) (when : PyDatetime)
    (download_mbps upload_mbps ping_ms : ℚ) : List (List String) :=
  rows ++ [sampleRow when download_mbps upload_mbps ping_ms]

/-- `_handle_stop_signal(signum, frame)`: the only writer of the global
`_STOP_REQUESTED`; it sets the flag to `True` unconditionally. -/
def handle_stop_signal (_flag : Bool) : Bool := true

/-- The value of `_STOP_REQUESTED` after `n` signal deliveries, starting from
the module-level initial value `False`.  The handler is the only assignment to
the flag anywhere in the program. -/
def flagAfterSignals : Nat → Bool
  | 0 => false
  | n + 1 => handle_stop_signal (flagAfterSignals n)

/-- Number of false-to-true transitions of the flag over the first `n`
signal deliveries. -/
def stopTransitions (n : Nat) : Nat :=
  ((List.range n).filter fun i =>
    !(flagAfterSignals i) && flagAfterSignals (i + 1)).length

/-- The stderr diagnostic line printed when a cycle's try-block raises
(line 115 of the source).  It carries the error detail verbatim. -/
def errorLine (exc : String) : String :=
  "[isp-service-checker] Error during speed test: " ++ exc

/-- The stdout status line printed after a successful cycle (line 112):
the naive start timestamp with a literal `Z` suffix and the three values. -/
def successLine (started : PyDatetime) (dl ul ping : ℚ) : String :=
  "[" ++ isoformatNaive started ++ "Z] Download: " ++ format2 dl ++
    " Mbps | Upload: " ++ format2 ul ++ " Mbps | Ping: " ++ format2 ping ++ " ms"

/-- One observable event of a run: a record appended to the CSV log, a line on
stderr, a line on stdout, one `time.sleep` call with its duration in seconds,
or the final `Stopped.` message. -/
inductive Event where
  | appended (row : List String)
  | diag (line : String)
  | status (line : String)
  | slept (seconds : Int)
  | stoppedMsg
deriving DecidableEq, Repr

/-- Oracles driving one run of the loop: per cycle `i`, the outcome of
`run_speed_test()` (`.error` = the call raised), the outcome of
`append_result` (`some e` = the write raised, leaving no record), the start
timestamp `datetime.utcnow()`, and the value of `_STOP_REQUESTED` at the
loop-top check of cycle `i` and at wait-check `j` of cycle `i`.  Signals
arrive asynchronously, so the flag schedules are inputs. -/
structure Env where
  prov : Nat → Except String (ℚ × ℚ × ℚ)
  appendErr : Nat → Option String
  startTime : Nat → PyDatetime
  stopAtTop : Nat → Bool
  stopInWait : Nat → Nat → Bool

/-- The inner wait loop (lines 118-121): `slept = 0; while slept <
interval_seconds and not _STOP_REQUESTED: time.sleep(min(1, interval_seconds -
slept)); slept += 1`.  Returns the list of sleep durations performed; `stop j`
is the flag value at the check made after `j` completed sleeps.  The fuel is
`interval.toNat`, which the counter can never outrun. -/
def waitFrom (interval : Int) (stop : Nat → Bool) : Nat → Nat → List Int
  | _, 0 => []
  | slept, fuel + 1 =>
    if (slept : Int) < interval ∧ stop slept = false then
      min 1 (interval - (slept : Int)) :: waitFrom interval stop (slept + 1) fuel
    else
      []

/-- The durations of the sleeps one wait phase performs. -/
def waitDurations (interval : Int) (stop : Nat → Bool) : List Int :=
  waitFrom interval stop 0 interval.toNat

/-- The try/except body of one cycle (lines 107-115): on provider success the
sample is appended and a status line printed; if the provider or the append
raises, the exception is caught and one diagnostic line goes to stderr, with
no record written. -/
def cycleEvents (env : Env) (i : Nat) : List Event :=
  match env.prov i with
  | .error e => [Event.diag (errorLine e)]
  | .ok (dl, ul, ping) =>
    match env.appendErr i with
    | some e => [Event.diag (errorLine e)]
    | none =>
      [Event.appended (sampleRow (env.startTime i) dl ul ping),
       Event.status (successLine (env.startTime i) dl ul ping)]

/-- The outer loop of `main` (lines 106-123), producing the trace of events
from cycle `i` on, observed for `fuel` iterations.  Exhausted fuel means the
run is still in progress (the loop is designed to run forever); the
`stoppedMsg` event is the `print("[isp-service-checker] Stopped.")` after the
loop exits on an observed stop flag. -/
def mainLoopAux (env : Env) (interval : Int) : Nat → Nat → List Event
  | _, 0 => []
  | i, fuel + 1 =>
    if env.stopAtTop i then
      [Event.stoppedMsg]
    else
      cycleEvents env i ++
        (waitDurations interval (env.stopInWait i)).map Event.slept ++
        mainLoopAux env interval (i + 1) fuel

/-- The two startup status lines (lines 103-104). -/
def startupLines (cfg : AppConfig) : List Event :=
  [Event.status ("[isp-service-checker] Logging to: " ++ cfg.log_file),
   Event.status ("[isp-service-checker] Interval: " ++ toString cfg.interval_seconds ++ " seconds")]

/-- Outcome of one process run: `fatal = some e` when an exception escaped
`main` (the process then exits nonzero via the traceback path of
`raise SystemExit(main())`), the exit code, and the observable trace. -/
structure MainResult where
  fatal : Option String
  exitCode : Int
  trace : List Event
deriving Repr

/-- `main()` (lines 90-124): load the configuration, set up the CSV header,
print the startup lines, then run the loop.  `cfgFile` is the configuration
file's state as in `load_config`; `ensureRaised` is `some e` when
`ensure_csv_with_headers` raises an I/O error `e` — `main` has no handler
around it, so the exception propagates and the loop is never entered. -/
def pyMain (cfgFile : Option (Except String (List (String × Toml))))
    (ensureRaised : Option String) (env : Env) (fuel : Nat) : MainResult :=
  match load_config cfgFile with
  | .error e => { fatal := some e, exitCode := 1, trace := [] }
  | .ok cfg =>
    match ensureRaised with
    | some e => { fatal := some e, exitCode := 1, trace := [] }
    | none =>
      { fatal := none, exitCode := 0,
        trace := startupLines cfg ++ mainLoopAux env cfg.interval_seconds 0 fuel }

/-- Number of header rows in the destination. -/
def countHeader (dest : Option (List (List String))) : Nat :=
  (dest.getD []).count csvHeader

/-- A concrete environment whose provider raises `boom` on every cycle and in
which no stop signal ever arrives. -/
def envFailing : Env where
  prov := fun _ => .error "boom"
  appendErr := fun _ => none
  startTime := fun _ => ⟨2024, 1, 1, 0, 0, 0, 0⟩
  stopAtTop := fun _ => false
  stopInWait := fun _ _ => false


/-- A string is rendered with exactly two decimal places: it ends in a dot
followed by exactly two digit characters (a digit is never a dot, so the two
characters after the final dot are precisely these two). -/
def twoDecimals (s : String) : Prop :=
  ∃ p c₁ c₂, s = p ++ String.mk ['.', c₁, c₂] ∧ c₁.isDigit = true ∧ c₂.isDigit = true

/-! Helper lemmas. -/

theorem tget_cons_ne (k key : String) (v : Toml) (d : List (String × Toml))
    (h : k ≠ key) : tget ((k, v) :: d) key = tget d key := by
  simp [tget, h]

/-- C7: loading configuration when the path does not reference an existing
file yields interval 300 and log destination "internet_metrics.csv",
without error. -/
theorem spec_default_config :
    load_config none =
      Except.ok { interval_seconds := 300, log_file := "internet_metrics.csv" } := rfl

/-- C3 counterexample: with `interval_seconds` present but holding the
non-integer-coercible value `"abc"`, `load_config` raises the `int()` error
instead of returning the default 300 — the claim is false at this input. -/
theorem spec_interval_noncoercible_cex :
    load_config_data [("app", Toml.table [("interval_seconds", Toml.str "abc")])] =
      Except.error "ValueError: invalid literal for int() with base 10: abc" ∧
    load_config_data [("app", Toml.table [("interval_seconds", Toml.str "abc")])] ≠
      Except.ok { interval_seconds := 300, log_file := "internet_metrics.csv" } := by
  exact ⟨rfl, by decide⟩

/-- C3 amended: the default 300 applies only when `interval_seconds` is
absent (and `log_file` defaults to "internet_metrics.csv" when absent); a
present value on which `int()` fails makes `load_config` propagate that
error rather than defaulting. -/
theorem spec_interval_default_amended
    (data kvs : List (String × Toml)) (v : Toml) (msg : String)
    (happ : tget data "app" = some (Toml.table kvs)) :
    (tget kvs "interval_seconds" = none →
      ∃ lf, load_config_data data = Except.ok { interval_seconds := 300, log_file := lf }) ∧
    (tget kvs "interval_seconds" = none → tget kvs "log_file" = none →
      load_config_data data =
        Except.ok { interval_seconds := 300, log_file := "internet_metrics.csv" }) ∧
    (tget kvs "interval_seconds" = some v → pyInt v = Except.error msg →
      load_config_data data = Except.error msg) := by
  refine ⟨?_, ?_, ?_⟩
  · intro h1
    refine ⟨(match tget kvs "log_file" with
      | none => "internet_metrics.csv"
      | some w => pyStr w), ?_⟩
    simp [load_config_data, happ, h1]
  · intro h1 h2
    simp [load_config_data, happ, h1, h2]
  · intro h1 h2
    simp [load_config_data, happ, h1, h2]

theorem spec_interval_default_amended_witness :
    load_config_data [("app", Toml.table [])] =
      Except.ok { interval_seconds := 300, log_file := "internet_metrics.csv" } ∧
    load_config_data [("app", Toml.table [("interval_seconds", Toml.str "abc")])] =
      Except.error "ValueError: invalid literal for int() with base 10: abc" := by
  constructor
  · exact (spec_interval_default_amended [("app", Toml.table [])] [] (Toml.str "x")
      "m" rfl).2.1 rfl rfl
  · exact (spec_interval_default_amended
      [("app", Toml.table [("interval_seconds", Toml.str "abc")])]
      [("interval_seconds", Toml.str "abc")] (Toml.str "abc")
      "ValueError: invalid literal for int() with base 10: abc" rfl).2.2 rfl (by decide)

/-- C10: for documents with an `app` table, `load_config` returns exactly
the two-key shape, dropping every other section and every unrecognized key
inside `app`; `interval_seconds` is coerced with `int()` (the digit string
"60" yields 60, the float 2.9 yields 2) and `log_file` with `str()`. -/
theorem spec_config_shape :
    (∀ (k : String) (v : Toml) (data : List (String × Toml)), k ≠ "app" →
      load_config_data ((k, v) :: data) = load_config_data data) ∧
    (∀ (k : String) (v : Toml) (kvs : List (String × Toml)),
      k ≠ "interval_seconds" → k ≠ "log_file" →
      load_config_data [("app", Toml.table ((k, v) :: kvs))] =
        load_config_data [("app", Toml.table kvs)]) ∧
    load_config_data [("app", Toml.table [("interval_seconds", Toml.str "60")])] =
      Except.ok { interval_seconds := 60, log_file := "internet_metrics.csv" } ∧
    load_config_data [("app", Toml.table [("interval_seconds", Toml.float (2.9 : ℚ))])] =
      Except.ok { interval_seconds := 2, log_file := "internet_metrics.csv" } ∧
    load_config_data [("app", Toml.table [("log_file", Toml.int 7)])] =
      Except.ok { interval_seconds := 300, log_file := "7" } := by
  refine ⟨?_, ?_, rfl, ?_, rfl⟩
  · intro k v data hk
    simp [load_config_data, tget_cons_ne k "app" v data hk]
  · intro k v kvs h1 h2
    simp [load_config_data, tget, h1, h2]
  · have h : (2.9 : ℚ) = mkRat 29 10 := by norm_num [Rat.mkRat_eq_div]
    rw [h]; decide

theorem spec_config_shape_witness :
    load_config_data [("server", Toml.int 1), ("app", Toml.table [])] =
      load_config_data [("app", Toml.table [])] ∧
    load_config_data [("app", Toml.table [("verbose", Toml.bool true)])] =
      load_config_data [("app", Toml.table [])] := by
  constructor
  · exact spec_config_shape.1 "server" (Toml.int 1) [("app", Toml.table [])] (by decide)
  · exact spec_config_shape.2.1 "verbose" (Toml.bool true) [] (by decide) (by decide)

theorem digitChar_isDigit (d : Nat) : (digitChar d).isDigit = true := by
  rw [digitChar]
  have h : d % 10 < 10 := Nat.mod_lt _ (by norm_num)
  set m := d % 10 with hm
  interval_cases m <;> decide

theorem format2_twoDecimals (q : ℚ) : twoDecimals (format2 q) := by
  refine ⟨(if q < 0 then "-" else "") ++ toString ((roundHalfEven (q * 100)).natAbs / 100),
    digitChar ((roundHalfEven (q * 100)).natAbs % 100 / 10),
    digitChar ((roundHalfEven (q * 100)).natAbs % 100),
    ?_, digitChar_isDigit _, digitChar_isDigit _⟩
  apply String.ext
  simp [format2, pad2, String.data_append]

/-- C5: store setup is idempotent — a missing or empty destination receives
exactly one header row (timestamp_iso,download_mbps,upload_mbps,ping_ms), a
non-empty destination is left untouched, repeating the call any number of
times changes nothing further, and no call ever pushes the header count
above one. -/
theorem spec_header_idempotent :
    ensure_csv_with_headers none = some [csvHeader] ∧
    ensure_csv_with_headers (some []) = some [csvHeader] ∧
    (∀ r rs, ensure_csv_with_headers (some (r :: rs)) = some (r :: rs)) ∧
    (∀ dest, ensure_csv_with_headers (ensure_csv_with_headers dest) =
      ensure_csv_with_headers dest) ∧
    (∀ n dest, ensure_csv_with_headers^[n + 1] dest = ensure_csv_with_headers dest) ∧
    (∀ dest, countHeader (ensure_csv_with_headers dest) ≤ max (countHeader dest) 1) := by
  have hfix : ∀ dest, ensure_csv_with_headers (ensure_csv_with_headers dest) =
      ensure_csv_with_headers dest := by
    intro dest
    cases dest with
    | none => rfl
    | some rows =>
      cases rows with
      | nil => rfl
      | cons r rs => rfl
  refine ⟨rfl, rfl, fun r rs => rfl, hfix, ?_, ?_⟩
  · intro n
    induction n with
    | zero => intro dest; simp
    | succ m ih =>
      intro dest
      rw [Function.iterate_succ_apply, ih, hfix]
  · intro dest
    cases dest with
    | none => simp [ensure_csv_with_headers, countHeader, csvHeader]
    | some rows =>
      cases rows with
      | nil => simp [ensure_csv_with_headers, countHeader, csvHeader]
      | cons r rs =>
        have h : ensure_csv_with_headers (some (r :: rs)) = some (r :: rs) := rfl
        rw [h]
        exact le_max_left _ _

/-- C4: after `append_result` returns, the destination holds exactly one new
record — the sample's timestamp rendered as an ISO-8601 UTC instant with the
explicit offset marker `+00:00`, then the download rate, upload rate and
latency each formatted with exactly two decimal places — and reading the
destination immediately afterwards yields that record as its last row. -/
theorem spec_append_record (rows : List (List String)) (t : PyDatetime)
    (dl ul ping : ℚ) :
    append_result rows t dl ul ping = rows ++ [sampleRow t dl ul ping] ∧
    (append_result rows t dl ul ping).length = rows.length + 1 ∧
    (append_result rows t dl ul ping).getLast? = some (sampleRow t dl ul ping) ∧
    sampleRow t dl ul ping = [isoformatUTC t, format2 dl, format2 ul, format2 ping] ∧
    isoformatUTC t = isoformatNaive t ++ "+00:00" ∧
    twoDecimals (format2 dl) ∧ twoDecimals (format2 ul) ∧ twoDecimals (format2 ping) := by
  refine ⟨rfl, by simp [append_result], ?_, rfl, rfl,
    format2_twoDecimals dl, format2_twoDecimals ul, format2_twoDecimals ping⟩
  simp [append_result]

theorem waitFrom_mem_le_one (interval : Int) (stop : Nat → Bool) :
    ∀ fuel slept d, d ∈ waitFrom interval stop slept fuel → d ≤ 1 := by
  intro fuel
  induction fuel with
  | zero => intro slept d h; simp [waitFrom] at h
  | succ m ih =>
    intro slept d h
    simp only [waitFrom] at h
    split at h
    · rcases List.mem_cons.mp h with h1 | h2
      · rw [h1]; exact min_le_left _ _
      · exact ih _ _ h2
    · simp at h

theorem waitFrom_length_le (interval : Int) (stop : Nat → Bool) (k : Nat)
    (hmono : ∀ i j, i ≤ j → stop i = true → stop j = true)
    (hk : stop k = true) :
    ∀ fuel slept, (waitFrom interval stop slept fuel).length ≤ k - slept := by
  intro fuel
  induction fuel with
  | zero => intro slept; simp [waitFrom]
  | succ m ih =>
    intro slept
    simp only [waitFrom]
    split
    · next hc =>
      have hlt : slept < k := by
        by_contra hge
        push_neg at hge
        have htrue := hmono k slept hge hk
        rw [hc.2] at htrue
        exact Bool.false_ne_true htrue
      have hrec := ih (slept + 1)
      simp only [List.length_cons]
      omega
    · simp

/-- C2: every sleep of the wait phase lasts at most one second and the stop
flag is re-checked before each one: with a monotone flag schedule that is
true at wait-check `k`, the whole wait performs at most `k` sleeps, so a flag
set during a sleep ends the wait within that one increment; a flag observed
true at the next loop top immediately yields the terminal `Stopped.` event. -/
theorem spec_shutdown_latency (interval : Int) (stop : Nat → Bool) (k : Nat)
    (hmono : ∀ i j, i ≤ j → stop i = true → stop j = true)
    (hk : stop k = true) :
    (∀ (ss : Nat → Bool) (d : Int), d ∈ waitDurations interval ss → d ≤ 1) ∧
    (waitDurations interval stop).length ≤ k ∧
    (∀ (env : Env) (i fuel : Nat), env.stopAtTop i = true →
      mainLoopAux env interval i (fuel + 1) = [Event.stoppedMsg]) := by
  refine ⟨?_, ?_, ?_⟩
  · intro ss d h
    simp only [waitDurations] at h
    exact waitFrom_mem_le_one interval ss _ _ d h
  · have h := waitFrom_length_le interval stop k hmono hk interval.toNat 0
    simpa [waitDurations] using h
  · intro env i fuel h
    simp [mainLoopAux, h]

theorem spec_shutdown_latency_witness :
    (∀ (ss : Nat → Bool) (d : Int), d ∈ waitDurations 300 ss → d ≤ 1) ∧
    (waitDurations 300 (fun j => decide (1 ≤ j))).length ≤ 1 := by
  have h := spec_shutdown_latency 300 (fun j => decide (1 ≤ j)) 1
    (by intro i j hij hi; simp only [decide_eq_true_eq] at hi ⊢; omega)
    (by decide)
  exact ⟨h.1, h.2.1⟩

/-- C9: with a zero or negative configured interval the wait phase performs
zero sleep increments, so consecutive cycles run back-to-back with no delay
and no error, and `load_config` accepts a non-positive interval unchanged. -/
theorem spec_nonpositive_interval (interval : Int) (stop : Nat → Bool) (env : Env)
    (hni : interval ≤ 0)
    (h0 : env.stopAtTop 0 = false) (h1 : env.stopAtTop 1 = false) :
    waitDurations interval stop = [] ∧
    mainLoopAux env interval 0 2 = cycleEvents env 0 ++ cycleEvents env 1 ∧
    load_config_data [("app", Toml.table [("interval_seconds", Toml.int (-5))])] =
      Except.ok { interval_seconds := -5, log_file := "internet_metrics.csv" } := by
  have hz : interval.toNat = 0 := by omega
  have hw : ∀ ss : Nat → Bool, waitDurations interval ss = [] := by
    intro ss
    simp [waitDurations, hz, waitFrom]
  refine ⟨hw stop, ?_, by decide⟩
  show mainLoopAux env interval 0 (0 + 1 + 1) = cycleEvents env 0 ++ cycleEvents env 1
  simp [mainLoopAux, h0, h1, hw]

theorem spec_nonpositive_interval_witness :
    waitDurations 0 (fun _ => false) = [] ∧
    mainLoopAux envFailing 0 0 2 = cycleEvents envFailing 0 ++ cycleEvents envFailing 1 := by
  have h := spec_nonpositive_interval 0 (fun _ => false) envFailing
    (by decide) rfl rfl
  exact ⟨h.1, h.2.1⟩

/-- C1: when the provider call or the store append raises on a cycle, the
error is caught inside the loop: that cycle's trace is exactly one stderr
diagnostic carrying the error detail, no record is appended for the cycle,
the process does not terminate, and the next cycle still runs after the
normal wait. -/
theorem spec_cycle_isolation (env : Env) (interval : Int) (i fuel : Nat) (e : String)
    (h0 : env.stopAtTop i = false) (h1 : env.stopAtTop (i + 1) = false)
    (hfail : env.prov i = Except.error e ∨
      ∃ v, env.prov i = Except.ok v ∧ env.appendErr i = some e) :
    cycleEvents env i = [Event.diag (errorLine e)] ∧
    (∀ r, Event.appended r ∉ cycleEvents env i) ∧
    errorLine e = "[isp-service-checker] Error during speed test: " ++ e ∧
    mainLoopAux env interval i (fuel + 1 + 1) =
      Event.diag (errorLine e) ::
        ((waitDurations interval (env.stopInWait i)).map Event.slept ++
          (cycleEvents env (i + 1) ++
            ((waitDurations interval (env.stopInWait (i + 1))).map Event.slept ++
              mainLoopAux env interval (i + 1 + 1) fuel))) := by
  have hA : cycleEvents env i = [Event.diag (errorLine e)] := by
    rcases hfail with hp | ⟨v, hp, ha⟩
    · simp [cycleEvents, hp]
    · obtain ⟨dl, ul, ping⟩ := v
      simp [cycleEvents, hp, ha]
  refine ⟨hA, ?_, rfl, ?_⟩
  · intro r
    rw [hA]
    simp
  · simp [mainLoopAux, h0, h1, hA]

theorem spec_cycle_isolation_witness :
    cycleEvents envFailing 0 = [Event.diag (errorLine "boom")] ∧
    (∀ r, Event.appended r ∉ cycleEvents envFailing 0) ∧
    errorLine "boom" = "[isp-service-checker] Error during speed test: " ++ "boom" ∧
    mainLoopAux envFailing 1 0 (0 + 1 + 1) =
      Event.diag (errorLine "boom") ::
        ((waitDurations 1 (envFailing.stopInWait 0)).map Event.slept ++
          (cycleEvents envFailing 1 ++
            ((waitDurations 1 (envFailing.stopInWait 1)).map Event.slept ++
              mainLoopAux envFailing 1 (0 + 1 + 1) 0))) :=
  spec_cycle_isolation envFailing 1 0 0 "boom" rfl rfl (Or.inl rfl)

theorem flagAfterSignals_eq_false (i : Nat) (h : flagAfterSignals i = false) :
    i = 0 := by
  cases i with
  | zero => rfl
  | succ m => simp [flagAfterSignals, handle_stop_signal] at h

theorem nodup_all_zero_length_le (l : List Nat) (hnd : l.Nodup)
    (hall : ∀ x ∈ l, x = 0) : l.length ≤ 1 := by
  match l with
  | [] => simp
  | [a] => simp
  | a :: b :: t =>
    exfalso
    have ha := hall a (by simp)
    have hb := hall b (by simp)
    rw [List.nodup_cons] at hnd
    exact hnd.1 (by simp [ha, hb])

/-- C6: the stop flag is initially false, the handler sets it true
unconditionally and is the only writer, the flag never reverts (after any
delivery it stays true through any further deliveries, which have no
additional effect), and over any run it makes at most one false-to-true
transition. -/
theorem spec_stopflag_machine :
    flagAfterSignals 0 = false ∧
    (∀ f, handle_stop_signal f = true) ∧
    (∀ n, flagAfterSignals (n + 1) = true) ∧
    (∀ n m, flagAfterSignals (n + 1 + m) = flagAfterSignals (n + 1)) ∧
    (∀ n, stopTransitions n ≤ 1) := by
  refine ⟨rfl, fun f => rfl, fun n => rfl, ?_, ?_⟩
  · intro n m
    have h1 : n + 1 + m = (n + m) + 1 := by omega
    rw [h1]
    rfl
  · intro n
    apply nodup_all_zero_length_le
    · exact List.Nodup.filter _ (List.nodup_range n)
    · intro x hx
      rw [List.mem_filter] at hx
      have h2 := hx.2
      simp only [Bool.and_eq_true, Bool.not_eq_true'] at h2
      exact flagAfterSignals_eq_false x h2.1

/-- C8: an I/O failure raised by the CSV header setup propagates out of the
call uncaught, so `main` ends with that fatal error and a nonzero exit
status, leaving an empty trace — the run loop is never entered. -/
theorem spec_fatal_init (cfgFile : Option (Except String (List (String × Toml))))
    (cfg : AppConfig) (env : Env) (fuel : Nat) (e : String)
    (hcfg : load_config cfgFile = Except.ok cfg) :
    pyMain cfgFile (some e) env fuel =
      { fatal := some e, exitCode := 1, trace := [] } ∧
    (pyMain cfgFile (some e) env fuel).exitCode ≠ 0 := by
  have h : pyMain cfgFile (some e) env fuel =
      { fatal := some e, exitCode := 1, trace := [] } := by
    simp [pyMain, hcfg]
  refine ⟨h, ?_⟩
  rw [h]
  simp

theorem spec_fatal_init_witness :
    pyMain none (some "OSError: read-only file system") envFailing 3 =
      { fatal := some "OSError: read-only file system", exitCode := 1, trace := [] } ∧
    (pyMain none (some "OSError: read-only file system") envFailing 3).exitCode ≠ 0 :=
  spec_fatal_init none { interval_seconds := 300, log_file := "internet_metrics.csv" }
    envFailing 3 "OSError: read-only file system" rfl
